import Mathlib

/-
Verification of the FEC contributions natural-language-to-SQL assistant
(src/main.py) against its specification.

The Python source is shallowly embedded:
- `call_model` (src/main.py:37-52) is modelled over an oracle giving the
  outcome of each attempt of `client.responses.create`; the OpenAI response
  object is modelled by `Resp` with the two shapes the code probes
  (an `output_text` attribute, or the nested `output[0].content[0].text`
  path).  The embedding returns, besides the result, the list of
  `time.sleep` durations observed, in order.
- `execute_sql` (src/main.py:54-66) is modelled over an oracle for
  `pd.read_sql_query`; a pandas DataFrame is modelled by `Table` (named
  columns, rows of rendered cells) and `DataFrame.empty` by `Table.empty`
  (true when either axis has length zero).
- The prompt f-strings (src/main.py:78-136, 146-177) are transcribed
  byte-for-byte, split at the interpolation points and at the four schema
  headings.
- The `st.button("Ask GPT")` handler (src/main.py:73-183) is modelled as
  `ask_gpt`, returning the ordered trace of user-visible events and
  external effects.
-/

/-- One item of the nested `content` list of a model response output entry
(the code reads `['text']` of the first one). -/
structure ContentItem where
  text : String
deriving Repr, DecidableEq

/-- One entry of the nested `output` list of a model response. -/
structure OutputEntry where
  content : List ContentItem
deriving Repr, DecidableEq

/-- A model-service response, as probed by `call_model`
(src/main.py:47): `output_text = some t` models the convenience attribute
being present with value `t`; `output_text = none` models `hasattr`
failing, in which case the code reads `resp['output'][0]['content'][0]['text']`. -/
structure Resp where
  output_text : Option String
  output : List OutputEntry
deriving Repr, DecidableEq

/-- Outcome of one `client.responses.create` call inside `call_model`:
either the call raises (network/API error) or returns a response object. -/
inductive AttemptOutcome where
  | raised (msg : String)
  | ok (resp : Resp)
deriving Repr, DecidableEq

/-- The extraction expression of src/main.py:47:
`resp.output_text if hasattr(resp, "output_text") else
resp['output'][0]['content'][0]['text']`.  `none` means the nested
indexing raised (empty `output` or empty `content`), which the enclosing
`try` catches as a failed attempt. -/
def extractOutput (resp : Resp) : Option String :=
  match resp.output_text with
  | some t => some t
  | none =>
    match resp.output with
    | [] => none
    | e :: _ =>
      match e.content with
      | [] => none
      | c :: _ => some c.text

/-- The observable result of one loop iteration of `call_model`
(src/main.py:42-47): `some t` when the create call returns and extraction
succeeds, `none` when the create call or the extraction raises. -/
def attemptValue : AttemptOutcome → Option String
  | .raised _ => none
  | .ok resp => extractOutput resp

/-- The retry loop of `call_model` (src/main.py:41-52), from attempt
number `attempt` with `fuel` iterations left.  Returns the result and the
list of `time.sleep (2 ** attempt)` durations performed, in order.  Note
the code sleeps after every failed attempt, the last one included. -/
def callModelFrom (attempts : Nat → AttemptOutcome) : Nat → Nat → Option String × List Nat
  | _, 0 => (none, [])
  | attempt, fuel + 1 =>
    match attemptValue (attempts attempt) with
    | some t => (some t, [])
    | none =>
      let rest := callModelFrom attempts (attempt + 1) fuel
      (rest.1, 2 ^ attempt :: rest.2)

/-- `call_model(prompt, max_retries)` of src/main.py:37-52, over the
per-attempt oracle `attempts`; the prompt itself does not influence the
modelled control flow.  Returns the extracted text (or `none` after
`max_retries` failures, src/main.py:52) together with the sleep durations
observed. -/
def call_model (attempts : Nat → AttemptOutcome) (max_retries : Nat) : Option String × List Nat :=
  callModelFrom attempts 0 max_retries

/-- A pandas DataFrame as far as this program observes it: named columns
and rows of rendered cells. -/
structure Table where
  columns : List String
  rows : List (List String)
deriving Repr, DecidableEq

/-- `DataFrame.empty` (pandas): true when any axis has length zero,
i.e. no rows or no columns.  `pd.DataFrame()` has both empty. -/
def Table.empty (t : Table) : Bool :=
  t.rows.isEmpty || t.columns.isEmpty

/-- One line of `DataFrame.to_string(index=False)`: the cells of one row.
Modelled from the spec: pandas rendering is library code outside this
repository; column-width padding is elided, cells are space-separated. -/
def renderRow (cells : List String) : String :=
  String.intercalate " " cells

/-- Join rendered lines with newlines (recursion kept explicit for the
proofs below). -/
def joinLines : List String → String
  | [] => ""
  | [x] => x
  | x :: xs => x ++ "\n" ++ joinLines xs

/-- `df_result.to_string(index=False)` (src/main.py:152).  Modelled from
the spec: a textual rendering of the table, the header line followed by
one line per row, all rows, no truncation (pandas `to_string` truncates
nothing by default). -/
def Table.to_string (t : Table) : String :=
  joinLines (renderRow t.columns :: t.rows.map renderRow)

/-- A user-visible event or external effect of the pipeline, in the order
the handler produces them. -/
inductive Event where
  | warningMsg (s : String)
  | errorMsg (s : String)
  | successMsg (s : String)
  | codeBlock (sql : String)
  | writeMsg (s : String)
  | modelCall (prompt : String)
  | dbExec (sql : String)
deriving Repr, DecidableEq

/-- `execute_sql(sql)` of src/main.py:54-66, over a connection handle of
type `Conn` (`none` models `conn is None`) and an oracle `readSql` for
`pd.read_sql_query`.  Returns the DataFrame together with the trace:
`dbExec` marks that execution was actually attempted, `errorMsg` the
`st.error` calls.  On any execution error the function catches it and
returns `pd.DataFrame()` (zero rows, zero columns). -/
def execute_sql {Conn : Type} (readSql : Conn → String → Except String Table)
    (conn : Option Conn) (sql : String) : Table × List Event :=
  match conn with
  | none => (Table.mk [] [], [Event.errorMsg "Database connection is not established."])
  | some c =>
    match readSql c sql with
    | Except.ok df => (df, [Event.dbExec sql])
    | Except.error e =>
      (Table.mk [] [], [Event.dbExec sql, Event.errorMsg ("SQL execution error: " ++ e)])

/-- Python `str.strip()` whitespace predicate (ASCII whitespace; the
code's guard is `user_question.strip() == ""`, src/main.py:74). -/
def pyWhitespace (c : Char) : Bool :=
  c = ' ' || c = '\t' || c = '\n' || c = '\r' || c = '\x0b' || c = '\x0c'

/-- Python `s.strip()`: drop leading and trailing whitespace. -/
def py_strip (s : String) : String :=
  String.mk (((s.data.dropWhile pyWhitespace).reverse.dropWhile pyWhitespace).reverse)
/-- Text of the SQL-generation f-string before the schema heading name contributors. -/
def sqlPromptSeg1 : String :=
  "\n"
  ++ "        You are an AI helper specialized in U.S. Federal Election Commission (FEC) contribution data.\n"
  ++ "        Your task is to translate the following natural language question into a **single, safe, and directly executable SQL query** \n"
  ++ "        for the FEC contributions database.\n"
  ++ "\n"
  ++ "        ⚠️ STRICT RULES:\n"
  ++ "        - Return ONLY the SQL query, with no explanation or commentary.\n"
  ++ "        - Do not use placeholders like $1, $2, or ?. Inline all constants (numbers, strings).\n"
  ++ "        - Use fully qualified column names with table aliases (e.g., c.full_name, co.contribution_receipt_amount).\n"
  ++ "        - When filtering by text values (like occupations, employers, or names), always use flexible matching with ILIKE '%value%'.\n"
  ++ "        Example: If the user asks for \"engineer\", match \"Engineer\", \"Software Engineer\", \"Civil Engineer\", etc.\n"
  ++ "        - Use contributor_addresses.lat and contributor_addresses.lng for geospatial filtering if the question involves location or radius.\n"
  ++ "        - Always GROUP BY when aggregating with SUM or COUNT.\n"
  ++ "        - If the user specifies an occupation or employer, treat it as a keyword.\n"
  ++ "        - Always match using ILIKE '%keyword%'.\n"
  ++ "        - If the keyword has common synonyms (e.g., \"educator\" → \"teacher\", \"professor\"), automatically include them in the WHERE clause with OR.\n"
  ++ "        - Example: cb.occupation ILIKE '%educator%' OR cb.occupation ILIKE '%teacher%' OR cb.occupation ILIKE '%professor%'.\n"
  ++ "        - Add sensible LIMITs (e.g., LIMIT 100 for large result sets).\n"
  ++ "        - The SQL must be valid PostgreSQL syntax and run without modification.\n"
  ++ "\n"
  ++ "        Database schema:\n"
  ++ "\n"
  ++ "        1. "

/-- Text between the contributors heading and the contributor_addresses heading. -/
def sqlPromptSeg2 : String :=
  "\n"
  ++ "        - id (PK)\n"
  ++ "        - full_name\n"
  ++ "        - contributor_type ('individual' or 'organization')\n"
  ++ "\n"
  ++ "        2. "

/-- Text between the contributor_addresses heading and the contributor_business heading. -/
def sqlPromptSeg3 : String :=
  "\n"
  ++ "        - id (PK)\n"
  ++ "        - contributor_id (FK → contributors.id)\n"
  ++ "        - street_1\n"
  ++ "        - street_2\n"
  ++ "        - city\n"
  ++ "        - state\n"
  ++ "        - zip\n"
  ++ "        - lat\n"
  ++ "        - lng\n"
  ++ "\n"
  ++ "        3. "

/-- Text between the contributor_business heading and the contributions heading. -/
def sqlPromptSeg4 : String :=
  "\n"
  ++ "        - id (PK)\n"
  ++ "        - contributor_id (FK → contributors.id)\n"
  ++ "        - business_address\n"
  ++ "        - employer\n"
  ++ "        - occupation\n"
  ++ "\n"
  ++ "        4. "

/-- Text after the contributions heading up to the interpolated user question. -/
def sqlPromptSeg5 : String :=
  "\n"
  ++ "        - transaction_id (PK)\n"
  ++ "        - contributor_id (FK → contributors.id)\n"
  ++ "        - contribution_receipt_amount\n"
  ++ "        - contribution_receipt_date\n"
  ++ "        - sub_id\n"
  ++ "        - year_cycle\n"
  ++ "        - contributor_year\n"
  ++ "        - committee_id\n"
  ++ "\n"
  ++ "        User question: \""

/-- Text of the SQL-generation f-string after the interpolated user question. -/
def sqlPromptSuffix : String :=
  "\"\n"
  ++ "\n"
  ++ "        Return only the SQL query.\n"
  ++ "        "

/-- Non-empty-result summary f-string before the interpolated user question. -/
def resultPromptNe1 : String :=
  "\n"
  ++ "                You are an expert in U.S. Federal Election Commission (FEC) contributions.\n"
  ++ "                The user asked: \""

/-- Non-empty-result summary f-string between the question and the rendered table. -/
def resultPromptNe2 : String :=
  "\".\n"
  ++ "\n"
  ++ "                Here are the SQL results:\n"
  ++ "\n"
  ++ "                "

/-- Non-empty-result summary f-string after the rendered table. -/
def resultPromptNe3 : String :=
  "\n"
  ++ "\n"
  ++ "                Instructions:\n"
  ++ "                - Provide a clear and concise answer to the user based strictly on these results.\n"
  ++ "                - Summarize key findings (e.g., top donors, totals, counts).\n"
  ++ "                - Do not explain SQL or database internals.\n"
  ++ "                - Keep the tone professional and informative.\n"
  ++ "                - If there are many rows, summarize the top results rather than listing everything.\n"
  ++ "\n"
  ++ "                Final answer:\n"
  ++ "                "

/-- Empty-result summary f-string before the interpolated user question. -/
def resultPromptEm1 : String :=
  "\n"
  ++ "                You are an expert in U.S. Federal Election Commission (FEC) contributions.\n"
  ++ "                The user asked: \""

/-- Empty-result summary f-string after the interpolated user question. -/
def resultPromptEm2 : String :=
  "\".\n"
  ++ "\n"
  ++ "                The database returned no results.\n"
  ++ "\n"
  ++ "                Instructions:\n"
  ++ "                - Politely explain that no matching records were found in the database.\n"
  ++ "                - Suggest plausible reasons why (e.g., missing occupation info, no contributions in that ZIP, data entry issues).\n"
  ++ "                - Keep the explanation concise and professional.\n"
  ++ "                - Do not speculate beyond these practical reasons.\n"
  ++ "\n"
  ++ "                Final answer:\n"
  ++ "                "
/-- The interpolation-free part of the SQL-generation f-string before the
user question (src/main.py:78-133), reassembled from the segments split
at the four schema heading names. -/
def sqlPromptPre : String :=
  sqlPromptSeg1 ++ "contributors" ++ sqlPromptSeg2 ++ "contributor_addresses"
    ++ sqlPromptSeg3 ++ "contributor_business" ++ sqlPromptSeg4 ++ "contributions"
    ++ sqlPromptSeg5

/-- `sql_prompt` (src/main.py:78-136): the SQL-generation f-string with
the user question interpolated at src/main.py:133. -/
def sql_prompt (user_question : String) : String :=
  sqlPromptPre ++ user_question ++ sqlPromptSuffix

/-- The non-empty-result summary f-string (src/main.py:146-162) with the
question and the rendered table interpolated. -/
def resultPromptNonEmpty (user_question rendered : String) : String :=
  resultPromptNe1 ++ user_question ++ resultPromptNe2 ++ rendered ++ resultPromptNe3

/-- The empty-result summary f-string (src/main.py:164-177) with the
question interpolated. -/
def resultPromptEmpty (user_question : String) : String :=
  resultPromptEm1 ++ user_question ++ resultPromptEm2

/-- `result_prompt` (src/main.py:145-177): branch on `not df_result.empty`
and build the corresponding summary f-string. -/
def result_prompt (user_question : String) (df_result : Table) : String :=
  if !df_result.empty then
    resultPromptNonEmpty user_question (df_result.to_string)
  else
    resultPromptEmpty user_question

/-- The `st.button("Ask GPT")` handler (src/main.py:73-183), as the
ordered trace of events it produces.  `callModelFn` is the observable
result of `call_model` on a given prompt (src/main.py:137 and 178);
`readSql`/`conn` parameterize `execute_sql` as above. -/
def ask_gpt {Conn : Type} (callModelFn : String → Option String)
    (readSql : Conn → String → Except String Table) (conn : Option Conn)
    (user_question : String) : List Event :=
  if py_strip user_question = "" then
    [Event.warningMsg "Please enter a question first."]
  else
    Event.modelCall (sql_prompt user_question) ::
      match callModelFn (sql_prompt user_question) with
      | none => [Event.errorMsg "Error calling GPT API for SQL generation."]
      | some sql_query =>
        let execRes := execute_sql readSql conn sql_query
        Event.codeBlock sql_query :: execRes.2
          ++ (Event.modelCall (result_prompt user_question execRes.1) ::
            match callModelFn (result_prompt user_question execRes.1) with
            | some answer =>
              if answer ≠ "" then
                [Event.successMsg "Answer from GPT:", Event.writeMsg answer]
              else
                [Event.errorMsg "Error calling GPT API for final answer."]
            | none => [Event.errorMsg "Error calling GPT API for final answer."])

/-- `s` contains `t` as a contiguous substring. -/
def ContainsStr (s t : String) : Prop :=
  ∃ a b, s = a ++ t ++ b

theorem containsStr_refl (s : String) : ContainsStr s s :=
  ⟨"", "", by simp⟩

theorem containsStr_append_left (a : String) {s t : String} (h : ContainsStr s t) :
    ContainsStr (a ++ s) t := by
  obtain ⟨x, y, rfl⟩ := h
  exact ⟨a ++ x, y, by simp [String.append_assoc]⟩

theorem containsStr_append_right (b : String) {s t : String} (h : ContainsStr s t) :
    ContainsStr (s ++ b) t := by
  obtain ⟨x, y, rfl⟩ := h
  exact ⟨x, y ++ b, by simp [String.append_assoc]⟩

theorem containsStr_trans {s t u : String} (h1 : ContainsStr s t) (h2 : ContainsStr t u) :
    ContainsStr s u := by
  obtain ⟨a, b, rfl⟩ := h1
  obtain ⟨c, d, rfl⟩ := h2
  exact ⟨a ++ c, d ++ b, by simp [String.append_assoc]⟩

theorem containsStr_joinLines {x : String} : ∀ {l : List String}, x ∈ l →
    ContainsStr (joinLines l) x
  | [], h => absurd h (List.not_mem_nil x)
  | [y], h => by
    rcases List.mem_singleton.mp h with rfl
    exact containsStr_refl x
  | y :: z :: rest, h => by
    rcases List.mem_cons.mp h with rfl | h2
    · show ContainsStr (x ++ "\n" ++ joinLines (z :: rest)) x
      exact containsStr_append_right _ (containsStr_append_right _ (containsStr_refl x))
    · show ContainsStr (y ++ "\n" ++ joinLines (z :: rest)) x
      exact containsStr_append_left _ (containsStr_joinLines h2)

theorem callModelFrom_all_fail (att : Nat → AttemptOutcome) :
    ∀ (fuel a : Nat), (∀ i, i < fuel → attemptValue (att (a + i)) = none) →
    callModelFrom att a fuel = (none, (List.range fuel).map fun i => 2 ^ (a + i))
  | 0, a, _ => by simp [callModelFrom]
  | fuel + 1, a, h => by
    have h0 : attemptValue (att a) = none := by simpa using h 0 (Nat.succ_pos _)
    have ih := callModelFrom_all_fail att fuel (a + 1) (fun i hi => by
      have := h (i + 1) (by omega)
      simpa [Nat.add_comm, Nat.add_assoc, Nat.add_left_comm] using this)
    simp only [callModelFrom, h0, ih, List.range_succ_eq_map, List.map_cons, List.map_map]
    refine Prod.ext rfl ?_
    simp only [Nat.add_zero]
    refine congrArg₂ _ rfl ?_
    refine List.map_congr_left (fun i _ => ?_)
    simp [Function.comp, Nat.add_comm, Nat.add_assoc, Nat.add_left_comm]

theorem callModelFrom_succeeds (att : Nat → AttemptOutcome) :
    ∀ (k fuel a : Nat) (out : String), k < fuel →
    (∀ i, i < k → attemptValue (att (a + i)) = none) →
    attemptValue (att (a + k)) = some out →
    callModelFrom att a fuel = (some out, (List.range k).map fun i => 2 ^ (a + i))
  | 0, fuel, a, out, hk, _, hsucc => by
    obtain ⟨m, rfl⟩ : ∃ m, fuel = m + 1 := ⟨fuel - 1, by omega⟩
    simp only [Nat.add_zero] at hsucc
    simp [callModelFrom, hsucc]
  | k + 1, fuel, a, out, hk, hfail, hsucc => by
    obtain ⟨m, rfl⟩ : ∃ m, fuel = m + 1 := ⟨fuel - 1, by omega⟩
    have h0 : attemptValue (att a) = none := by simpa using hfail 0 (Nat.succ_pos _)
    have ih := callModelFrom_succeeds att k m (a + 1) out (by omega)
      (fun i hi => by
        have := hfail (i + 1) (by omega)
        simpa [Nat.add_comm, Nat.add_assoc, Nat.add_left_comm] using this)
      (by
        have : a + 1 + k = a + (k + 1) := by omega
        rw [this]; exact hsucc)
    simp only [callModelFrom, h0, ih, List.range_succ_eq_map, List.map_cons, List.map_map]
    refine Prod.ext rfl ?_
    simp only [Nat.add_zero]
    refine congrArg₂ _ rfl ?_
    refine List.map_congr_left (fun i _ => ?_)
    simp [Function.comp, Nat.add_comm, Nat.add_assoc, Nat.add_left_comm]

theorem sum_range_pow_two : ∀ n : Nat, ((List.range n).map fun i => 2 ^ i).sum = 2 ^ n - 1
  | 0 => rfl
  | n + 1 => by
    have ih := sum_range_pow_two n
    have hpos : 1 ≤ 2 ^ n := Nat.one_le_two_pow
    rw [List.range_succ, List.map_append, List.sum_append, ih]
    simp [Nat.pow_succ]
    omega

/-- C1: for every prompt-attempt oracle and every max_retries ≥ 1, if the
model call faults on the first k attempts (k < max_retries) and succeeds
on attempt k, then `call_model` returns the successful output and the
observed sleep durations are exactly 1, 2, 4, …, 2^(k-1) in sequence; if
the call faults on all max_retries attempts, `call_model` returns `none`
(and, being a total function, raises nothing to the caller). -/
theorem call_model_retry_backoff (attempts : Nat → AttemptOutcome) (max_retries k : Nat)
    (out : String) (hmr : 1 ≤ max_retries) :
    (k < max_retries → (∀ i, i < k → attemptValue (attempts i) = none) →
      attemptValue (attempts k) = some out →
      call_model attempts max_retries = (some out, (List.range k).map fun i => 2 ^ i)) ∧
    ((∀ i, i < max_retries → attemptValue (attempts i) = none) →
      (call_model attempts max_retries).1 = none) := by
  constructor
  · intro hk hfail hsucc
    have h := callModelFrom_succeeds attempts k max_retries 0 out hk
      (by simpa using hfail) (by simpa using hsucc)
    simpa [call_model] using h
  · intro hfail
    have h := callModelFrom_all_fail attempts max_retries 0 (by simpa using hfail)
    simp [call_model, h]

/-- Witness for C1: with faults on attempts 0 and 1 and success on
attempt 2 (max_retries = 3), `call_model` returns the output and slept
exactly 1 then 2 time units. -/
theorem call_model_retry_backoff_witness :
    (1 : Nat) ≤ 3 ∧
    call_model (fun i => if i < 2 then AttemptOutcome.raised "boom"
        else AttemptOutcome.ok (Resp.mk (some "SELECT 1") [])) 3
      = (some "SELECT 1", [1, 2]) := by
  refine ⟨by decide, ?_⟩
  have h := (call_model_retry_backoff
    (fun i => if i < 2 then AttemptOutcome.raised "boom"
      else AttemptOutcome.ok (Resp.mk (some "SELECT 1") [])) 3 2 "SELECT 1"
    (by decide)).1 (by decide)
    (fun i hi => by
      match i, hi with
      | 0, _ => rfl
      | 1, _ => rfl)
    rfl
  simpa using h

/-- C10: when all max_retries attempts fail, `call_model` sleeps after
every failed attempt, the final one included: the sleeps observed are
1, 2, …, 2^(max_retries-1), totalling 2^max_retries - 1 time units, one
per attempt, before `none` is returned. -/
theorem call_model_sleeps_after_final_failure (attempts : Nat → AttemptOutcome)
    (max_retries : Nat)
    (hfail : ∀ i, i < max_retries → attemptValue (attempts i) = none) :
    call_model attempts max_retries = (none, (List.range max_retries).map fun i => 2 ^ i) ∧
    (call_model attempts max_retries).2.sum = 2 ^ max_retries - 1 ∧
    (call_model attempts max_retries).2.length = max_retries := by
  have h : call_model attempts max_retries
      = (none, (List.range max_retries).map fun i => 2 ^ i) := by
    have h0 := callModelFrom_all_fail attempts max_retries 0 (by simpa using hfail)
    simpa [call_model] using h0
  refine ⟨h, ?_, ?_⟩
  · rw [h]; exact sum_range_pow_two max_retries
  · rw [h]; simp

/-- Witness for C10: three failing attempts sleep 1, 2 and 4 time units
(7 in total) and the call returns `none`. -/
theorem call_model_sleeps_after_final_failure_witness :
    call_model (fun _ => AttemptOutcome.raised "down") 3 = (none, [1, 2, 4]) ∧
    (call_model (fun _ => AttemptOutcome.raised "down") 3).2.sum = 7 := by
  have h := call_model_sleeps_after_final_failure (fun _ => AttemptOutcome.raised "down") 3
    (fun i _ => rfl)
  exact ⟨by rw [h.1]; rfl, by simpa using h.2.1⟩

/-- C2: `execute_sql` never raises past its boundary: it is total and
always returns a Table.  On any execution error it catches the error and
returns the empty Table (zero rows, zero columns); when the connection
handle is absent it short-circuits to the empty Table with the distinct
connection-not-established message, and the trace shows execution was
never attempted (no `dbExec` event). -/
theorem execute_sql_never_raises {Conn : Type} (readSql : Conn → String → Except String Table)
    (conn : Option Conn) (sql : String) :
    (∀ c e, conn = some c → readSql c sql = Except.error e →
      execute_sql readSql conn sql
        = (Table.mk [] [], [Event.dbExec sql,
            Event.errorMsg ("SQL execution error: " ++ e)])) ∧
    (conn = none →
      execute_sql readSql conn sql
        = (Table.mk [] [], [Event.errorMsg "Database connection is not established."])) := by
  constructor
  · rintro c e rfl he
    simp [execute_sql, he]
  · rintro rfl
    rfl

/-- Witness for C2: a failing execution yields the empty Table with the
execution-error message; an absent connection yields the empty Table with
the connection message and no execution attempt. -/
theorem execute_sql_never_raises_witness :
    execute_sql (fun (_ : Unit) (_ : String) => (Except.error "relation missing" : Except String Table))
        (some ()) "SELECT 1"
      = (Table.mk [] [], [Event.dbExec "SELECT 1",
          Event.errorMsg "SQL execution error: relation missing"]) ∧
    execute_sql (fun (_ : Unit) (_ : String) => (Except.error "unused" : Except String Table))
        none "SELECT 1"
      = (Table.mk [] [], [Event.errorMsg "Database connection is not established."]) :=
  ⟨(execute_sql_never_raises _ _ _).1 () "relation missing" rfl rfl,
   (execute_sql_never_raises _ _ _).2 rfl⟩

/-- C4: output extraction prefers the convenience `output_text` field
whenever the response has it (whatever the nested payload holds), and
otherwise falls back to the first content item of the first output entry
(`output[0].content[0].text`). -/
theorem extractOutput_prefers_output_text (resp : Resp) :
    (∀ t, resp.output_text = some t → extractOutput resp = some t) ∧
    (resp.output_text = none →
      ∀ e es c cs, resp.output = e :: es → e.content = c :: cs →
        extractOutput resp = some c.text) := by
  constructor
  · intro t ht
    simp [extractOutput, ht]
  · intro hn e es c cs ho hc
    simp [extractOutput, hn, ho, hc]

/-- Witness for C4: on a response carrying both shapes the convenience
field wins; with the convenience field absent the nested text is used. -/
theorem extractOutput_prefers_output_text_witness :
    extractOutput (Resp.mk (some "convenience") [OutputEntry.mk [ContentItem.mk "nested"]])
      = some "convenience" ∧
    extractOutput (Resp.mk none [OutputEntry.mk [ContentItem.mk "nested"]]) = some "nested" :=
  ⟨(extractOutput_prefers_output_text _).1 "convenience" rfl,
   (extractOutput_prefers_output_text _).2 rfl _ _ _ _ rfl rfl⟩

/-- C8: SQL-prompt construction is deterministic: building the prompt
twice from the identical question yields byte-identical output.
`sql_prompt` is a pure function of the question alone — no other state
enters its definition. -/
theorem sql_prompt_deterministic (q : String) : sql_prompt q = sql_prompt q := rfl

/-- C6: a question that is blank or whitespace-only short-circuits to the
single user warning: whatever the model oracle, connection and database
behave like, the trace holds no model call, no SQL prompt, no execution. -/
theorem blank_question_short_circuits {Conn : Type} (callModelFn : String → Option String)
    (readSql : Conn → String → Except String Table) (conn : Option Conn)
    (q : String) (hq : py_strip q = "") :
    ask_gpt callModelFn readSql conn q = [Event.warningMsg "Please enter a question first."] := by
  simp [ask_gpt, hq]

/-- Witness for C6: a whitespace-only question produces exactly the
warning event. -/
theorem blank_question_short_circuits_witness :
    py_strip "  \t " = "" ∧
    ask_gpt (fun _ => some "SELECT 1")
        (fun (_ : Unit) (_ : String) => Except.ok (Table.mk [] [])) (some ()) "  \t "
      = [Event.warningMsg "Please enter a question first."] :=
  ⟨rfl, blank_question_short_circuits _ _ _ _ rfl⟩

/-- C5: for every non-empty question, the SQL-generation prompt contains
the literal question text and all four schema table names. -/
theorem sql_prompt_contains_question_and_schema (q : String) (hq : q ≠ "") :
    ContainsStr (sql_prompt q) q ∧
    ContainsStr (sql_prompt q) "contributors" ∧
    ContainsStr (sql_prompt q) "contributor_addresses" ∧
    ContainsStr (sql_prompt q) "contributor_business" ∧
    ContainsStr (sql_prompt q) "contributions" := by
  refine ⟨⟨sqlPromptPre, sqlPromptSuffix, rfl⟩, ?_, ?_, ?_, ?_⟩
  · exact ⟨sqlPromptSeg1,
      sqlPromptSeg2 ++ "contributor_addresses" ++ sqlPromptSeg3 ++ "contributor_business"
        ++ sqlPromptSeg4 ++ "contributions" ++ sqlPromptSeg5 ++ q ++ sqlPromptSuffix,
      by simp [sql_prompt, sqlPromptPre, String.append_assoc]⟩
  · exact ⟨sqlPromptSeg1 ++ "contributors" ++ sqlPromptSeg2,
      sqlPromptSeg3 ++ "contributor_business" ++ sqlPromptSeg4 ++ "contributions"
        ++ sqlPromptSeg5 ++ q ++ sqlPromptSuffix,
      by simp [sql_prompt, sqlPromptPre, String.append_assoc]⟩
  · exact ⟨sqlPromptSeg1 ++ "contributors" ++ sqlPromptSeg2 ++ "contributor_addresses"
        ++ sqlPromptSeg3,
      sqlPromptSeg4 ++ "contributions" ++ sqlPromptSeg5 ++ q ++ sqlPromptSuffix,
      by simp [sql_prompt, sqlPromptPre, String.append_assoc]⟩
  · exact ⟨sqlPromptSeg1 ++ "contributors" ++ sqlPromptSeg2 ++ "contributor_addresses"
        ++ sqlPromptSeg3 ++ "contributor_business" ++ sqlPromptSeg4,
      sqlPromptSeg5 ++ q ++ sqlPromptSuffix,
      by simp [sql_prompt, sqlPromptPre, String.append_assoc]⟩

/-- Witness for C5: the prompt built from a concrete question contains
the question and the four table names. -/
theorem sql_prompt_contains_question_and_schema_witness :
    "How much did John Smith donate in 2022?" ≠ "" ∧
    (ContainsStr (sql_prompt "How much did John Smith donate in 2022?")
        "How much did John Smith donate in 2022?" ∧
      ContainsStr (sql_prompt "How much did John Smith donate in 2022?") "contributors" ∧
      ContainsStr (sql_prompt "How much did John Smith donate in 2022?") "contributor_addresses" ∧
      ContainsStr (sql_prompt "How much did John Smith donate in 2022?") "contributor_business" ∧
      ContainsStr (sql_prompt "How much did John Smith donate in 2022?") "contributions") :=
  ⟨by decide, sql_prompt_contains_question_and_schema _ (by decide)⟩

/-- C7: for every table the code treats as non-empty, the summary prompt
embeds the full textual rendering of the table, and in particular a
rendering of every row the caller passed — the construction truncates no
row. -/
theorem result_prompt_embeds_all_rows (q : String) (t : Table) (h : t.empty = false) :
    ContainsStr (result_prompt q t) t.to_string ∧
    ∀ r, r ∈ t.rows → ContainsStr (result_prompt q t) (renderRow r) := by
  have hbranch : result_prompt q t = resultPromptNonEmpty q t.to_string := by
    simp [result_prompt, h]
  have hfull : ContainsStr (result_prompt q t) t.to_string := by
    rw [hbranch]
    exact ⟨resultPromptNe1 ++ q ++ resultPromptNe2, resultPromptNe3,
      by simp [resultPromptNonEmpty, String.append_assoc]⟩
  refine ⟨hfull, fun r hr => ?_⟩
  have hrow : ContainsStr t.to_string (renderRow r) := by
    have hmem : renderRow r ∈ renderRow t.columns :: t.rows.map renderRow :=
      List.mem_cons_of_mem _ (List.mem_map_of_mem _ hr)
    exact containsStr_joinLines hmem
  exact containsStr_trans hfull hrow

/-- Witness for C7: a one-row table's row rendering appears in the
summary prompt. -/
theorem result_prompt_embeds_all_rows_witness :
    (Table.mk ["total"] [["500"]]).empty = false ∧
    (ContainsStr (result_prompt "How much?" (Table.mk ["total"] [["500"]]))
        (Table.to_string (Table.mk ["total"] [["500"]])) ∧
      ∀ r, r ∈ (Table.mk ["total"] [["500"]]).rows →
        ContainsStr (result_prompt "How much?" (Table.mk ["total"] [["500"]])) (renderRow r)) :=
  ⟨rfl, result_prompt_embeds_all_rows "How much?" _ rfl⟩

/-- C3 (amended): the summary-prompt choice is a pure function of the
Table's shape through pandas emptiness (zero rows or zero columns): a
Table with zero rows selects the "no results" template; a Table with at
least one row and at least one column selects the "summarize results"
template; a Table with rows but zero columns also selects the
"no results" template. -/
theorem result_prompt_template_choice (q : String) (t : Table) :
    (t.rows = [] → result_prompt q t = resultPromptEmpty q) ∧
    (t.rows ≠ [] → t.columns ≠ [] →
      result_prompt q t = resultPromptNonEmpty q t.to_string) ∧
    (t.columns = [] → result_prompt q t = resultPromptEmpty q) := by
  refine ⟨?_, ?_, ?_⟩
  · intro hr
    simp [result_prompt, Table.empty, hr]
  · intro hr hc
    obtain ⟨r, rs, hrows⟩ : ∃ r rs, t.rows = r :: rs := by
      cases hrows : t.rows with
      | nil => exact absurd hrows hr
      | cons r rs => exact ⟨r, rs, rfl⟩
    obtain ⟨c, cs, hcols⟩ : ∃ c cs, t.columns = c :: cs := by
      cases hcols : t.columns with
      | nil => exact absurd hcols hc
      | cons c cs => exact ⟨c, cs, rfl⟩
    have hemp : t.empty = false := by
      simp [Table.empty, hrows, hcols]
    simp [result_prompt, hemp]
  · intro hc
    simp [result_prompt, Table.empty, hc]

/-- Witness for C3 (amended): a zero-row table selects the no-results
template; a one-row one-column table selects the summarize template. -/
theorem result_prompt_template_choice_witness :
    result_prompt "q" (Table.mk ["total"] []) = resultPromptEmpty "q" ∧
    result_prompt "q" (Table.mk ["total"] [["500"]])
      = resultPromptNonEmpty "q" (Table.to_string (Table.mk ["total"] [["500"]])) :=
  ⟨(result_prompt_template_choice "q" _).1 rfl,
   (result_prompt_template_choice "q" _).2.1 (by decide) (by decide)⟩

/-- C3 counterexample: the branch is not a function of row count alone —
a Table with one row but zero columns (pandas `DataFrame.empty` is true
whenever any axis has length zero) selects the "no results" template,
not the "summarize results" template the claim requires for a table with
at least one row. -/
theorem result_prompt_rowcount_counterexample :
    (Table.mk [] [[]]).rows.length = 1 ∧
    result_prompt "q" (Table.mk [] [[]]) = resultPromptEmpty "q" ∧
    result_prompt "q" (Table.mk [] [[]])
      ≠ resultPromptNonEmpty "q" (Table.to_string (Table.mk [] [[]])) := by
  refine ⟨rfl, rfl, ?_⟩
  decide

/-- C9: the two pipeline stages test the model's result asymmetrically.
With the SQL-generation call returning the empty string, the pipeline
treats it as success: the empty string is shown as the generated query
and passed to the Query Executor (`dbExec ""`).  With the
answer-generation call successfully returning the empty string, the
falsy check reports the answer-generation error instead of an answer. -/
theorem pipeline_empty_string_asymmetry {Conn : Type} (callModelFn : String → Option String)
    (readSql : Conn → String → Except String Table) (c : Conn) (q : String) (t : Table)
    (hq : py_strip q ≠ "")
    (hsql : callModelFn (sql_prompt q) = some "")
    (hexec : readSql c "" = Except.ok t)
    (hans : callModelFn (result_prompt q t) = some "") :
    ask_gpt callModelFn readSql (some c) q =
      [Event.modelCall (sql_prompt q), Event.codeBlock "", Event.dbExec "",
       Event.modelCall (result_prompt q t),
       Event.errorMsg "Error calling GPT API for final answer."] := by
  simp [ask_gpt, hq, hsql, execute_sql, hexec, hans]

/-- Witness for C9: a model oracle answering the empty string to every
prompt drives the pipeline through query execution of the empty string
and ends in the answer-generation error. -/
theorem pipeline_empty_string_asymmetry_witness :
    py_strip "hello" ≠ "" ∧
    ask_gpt (fun _ => some "")
        (fun (_ : Unit) (_ : String) => Except.ok (Table.mk ["a"] [["1"]])) (some ()) "hello"
      = [Event.modelCall (sql_prompt "hello"), Event.codeBlock "", Event.dbExec "",
         Event.modelCall (result_prompt "hello" (Table.mk ["a"] [["1"]])),
         Event.errorMsg "Error calling GPT API for final answer."] :=
  ⟨by decide, pipeline_empty_string_asymmetry _ _ () "hello" _ (by decide) rfl rfl rfl⟩
